import Mathlib

/-!
Verification of the kitforge model-metrics and pricing engine.

The Python code (backend/api/compute_pipeline.py, backend/api/pricing_engine.py)
is embedded shallowly: real-valued quantities become rationals (ℚ), Python ints
become ℤ / ℕ, and the 2-decimal rounding performed by the pricing code is
modelled by round-half-to-even on ℚ, mirroring the semantics of the rounding
used by the source.  All definitions are computable so that concrete inputs can
be evaluated inside proofs.
-/

namespace Kitforge

/-- Geometry record produced by `ModelAnalyzer.extract_geometry`:
volume in cm³, axis-aligned bounding box extents (x, y, z) in mm,
surface area in cm². -/
structure Geometry where
  volume_cm3 : ℚ
  bounding_box : ℚ × ℚ × ℚ
  surface_area_cm2 : ℚ
deriving DecidableEq

/-- Quality record produced by `ModelAnalyzer.analyze_mesh_quality`:
the fields of the mesh that `compute_complexity_score` reads
(`len(mesh.faces)`, `mesh.is_watertight`, `len(mesh.split())`). -/
structure Quality where
  triangle_count : ℕ
  is_watertight : Bool
  shell_count : ℕ
deriving DecidableEq

/-- Largest of the three bounding-box extents: Python `max(bbox)` on a 3-tuple. -/
def max3 (b : ℚ × ℚ × ℚ) : ℚ := max b.1 (max b.2.1 b.2.2)

/-- Smallest of the three bounding-box extents: Python `min(bbox)` on a 3-tuple. -/
def min3 (b : ℚ × ℚ × ℚ) : ℚ := min b.1 (min b.2.1 b.2.2)

/-- The triangle-density measure computed by `compute_complexity_score`:
`len(mesh.faces) / max(geometry['volume_cm3'], 1)`. -/
def tri_density (g : Geometry) (q : Quality) : ℚ :=
  (q.triangle_count : ℚ) / max g.volume_cm3 1

/-- The aspect-ratio measure computed by `compute_complexity_score`:
`max(bbox) / max(min(bbox), 0.1)`. -/
def aspect_measure (g : Geometry) : ℚ :=
  max3 g.bounding_box / max (min3 g.bounding_box) (1/10)

/-- The surface-area-to-volume measure computed by `compute_complexity_score`:
`surface_area_cm2 / max(volume_cm3, 0.1)`. -/
def sa_vol_measure (g : Geometry) : ℚ :=
  g.surface_area_cm2 / max g.volume_cm3 (1/10)

/-- The unclamped sum of the five scoring contributions as a function of the
five measured risk factors: triangle density, shell count, aspect ratio,
watertightness and surface-area-to-volume ratio. -/
def rawScoreOfMeasures (td : ℚ) (sc : ℕ) (ar : ℚ) (w : Bool) (sv : ℚ) : ℤ :=
  (if td > 1000 then 2 else if td > 500 then 1 else 0)
  + (if sc > 3 then 2 else if sc > 1 then 1 else 0)
  + (if ar > 10 then 2 else if ar > 5 then 1 else 0)
  + (if w then 0 else 2)
  + (if sv > 50 then 2 else if sv > 25 then 1 else 0)

/-- The clamped complexity score as a function of the five measured risk
factors.  `compute_complexity_score` is exactly this function applied to the
measures it derives from its inputs. -/
def scoreOfMeasures (td : ℚ) (sc : ℕ) (ar : ℚ) (w : Bool) (sv : ℚ) : ℤ :=
  min (rawScoreOfMeasures td sc ar w sv) 10

/-- The unclamped sum of the five scoring contributions: the value of the
`score` accumulator in `ModelAnalyzer.compute_complexity_score` just before
the final `min(score, 10)`. -/
def raw_complexity_score (g : Geometry) (q : Quality) : ℤ :=
  let td : ℚ := tri_density g q
  let s1 : ℤ := if td > 1000 then 2 else if td > 500 then 1 else 0
  let s2 : ℤ := if q.shell_count > 3 then 2 else if q.shell_count > 1 then 1 else 0
  let ar : ℚ := aspect_measure g
  let s3 : ℤ := if ar > 10 then 2 else if ar > 5 then 1 else 0
  let s4 : ℤ := if q.is_watertight then 0 else 2
  let sv : ℚ := sa_vol_measure g
  let s5 : ℤ := if sv > 50 then 2 else if sv > 25 then 1 else 0
  s1 + s2 + s3 + s4 + s5

/-- `ModelAnalyzer.compute_complexity_score`: the thresholded sum of the five
risk-factor contributions, capped at 10. -/
def compute_complexity_score (g : Geometry) (q : Quality) : ℤ :=
  min (raw_complexity_score g q) 10

/-- The scoring rule as stated by the specification's table: +2/+1 tiers on
triangle density, shell count, aspect ratio, surface/volume ratio, +2 for
non-watertight, the sum clamped to a maximum of 10.  Written from the spec's
words, to be compared against `compute_complexity_score`. -/
def spec_complexity_score (g : Geometry) (q : Quality) : ℤ :=
  let td : ℚ := (q.triangle_count : ℚ) / max g.volume_cm3 1
  let tri : ℤ := if td > 1000 then 2 else if td > 500 then 1 else 0
  let shells : ℤ := if q.shell_count > 3 then 2 else if q.shell_count > 1 then 1 else 0
  let ar : ℚ := max3 g.bounding_box / max (min3 g.bounding_box) (1/10)
  let aspect : ℤ := if ar > 10 then 2 else if ar > 5 then 1 else 0
  let water : ℤ := if q.is_watertight then 0 else 2
  let sv : ℚ := g.surface_area_cm2 / max g.volume_cm3 (1/10)
  let thin : ℤ := if sv > 50 then 2 else if sv > 25 then 1 else 0
  min (tri + shells + aspect + water + thin) 10

/-! ### Pricing engine (backend/api/pricing_engine.py) -/

/-- Round-half-to-even to the nearest integer, the rounding mode of Python's
built-in `round`. -/
def roundHalfEven (x : ℚ) : ℤ :=
  let n := Int.floor x
  let f := x - (n : ℚ)
  if f > 1/2 then n + 1
  else if f < 1/2 then n
  else if 2 ∣ n then n else n + 1

/-- Python `round(x, 2)`: round to 2 decimal places, ties to even. -/
def round2 (x : ℚ) : ℚ := (roundHalfEven (x * 100) : ℚ) / 100

/-- A material profile: density in g/cm³ and cost in USD per gram. -/
structure MaterialProfile where
  density : ℚ
  cost_per_gram : ℚ
deriving DecidableEq

/-- `PricingEngine.default_density` (environment default 1.24 g/cm³). -/
def default_density : ℚ := 124/100

/-- `PricingEngine.default_cost_per_gram` (environment default 0.02 USD/g). -/
def default_cost_per_gram : ℚ := 2/100

/-- `PricingEngine.fdm_print_speed` (environment default 20.0 cm³/hour). -/
def fdm_print_speed : ℚ := 20

/-- `PricingEngine.materials`: the material database. -/
def materials : List (String × MaterialProfile) :=
  [("PLA",   ⟨124/100, 2/100⟩),
   ("ABS",   ⟨104/100, 25/1000⟩),
   ("PETG",  ⟨127/100, 3/100⟩),
   ("TPU",   ⟨121/100, 5/100⟩),
   ("Nylon", ⟨114/100, 6/100⟩),
   ("ASA",   ⟨107/100, 35/1000⟩)]

/-- Dictionary membership test and lookup for `self.materials`. -/
def findMaterial (material : String) : Option MaterialProfile :=
  materials.lookup material

/-- The effective density used by `calculate_mass`:
`density * (0.3 + 0.7 * (infill_percentage / 100))` with the density taken
from the material table or from the default when the name is unknown. -/
def effective_density (material : String) (infill_percentage : ℤ) : ℚ :=
  let density := match findMaterial material with
    | some p => p.density
    | none => default_density
  density * (3/10 + 7/10 * ((infill_percentage : ℚ) / 100))

/-- `PricingEngine.calculate_mass`: mass in grams, rounded to 2 decimals. -/
def calculate_mass (volume_cm3 : ℚ) (material : String) (infill_percentage : ℤ) : ℚ :=
  round2 (volume_cm3 * effective_density material infill_percentage)

/-- `PricingEngine.calculate_material_cost`: cost in USD, rounded to 2 decimals. -/
def calculate_material_cost (mass_g : ℚ) (material : String) : ℚ :=
  let cost_per_gram := match findMaterial material with
    | some p => p.cost_per_gram
    | none => default_cost_per_gram
  round2 (mass_g * cost_per_gram)

/-- The print time computed by `estimate_print_time` before the final rounding:
`(volume / speed) * (1 + score/10) * (0.8 + (infill/100) * 0.4)`. -/
def raw_print_time (volume_cm3 : ℚ) (complexity_score : ℤ) (infill_percentage : ℤ) : ℚ :=
  let base_time := volume_cm3 / fdm_print_speed
  let complexity_multiplier := 1 + (complexity_score : ℚ) / 10
  let infill_multiplier := 8/10 + ((infill_percentage : ℚ) / 100) * (4/10)
  base_time * complexity_multiplier * infill_multiplier

/-- `PricingEngine.estimate_print_time`: hours, rounded to 2 decimals. -/
def estimate_print_time (volume_cm3 : ℚ) (complexity_score : ℤ) (infill_percentage : ℤ) : ℚ :=
  round2 (raw_print_time volume_cm3 complexity_score infill_percentage)

/-- The settings bundle returned by `get_recommended_settings`. -/
structure RecommendedSettings where
  layer_height_mm : ℚ
  infill_percentage : ℤ
  supports_needed : Bool
  brim_recommended : Bool
  print_speed_mm_s : ℤ
deriving DecidableEq

/-- `PricingEngine.get_recommended_settings`. -/
def get_recommended_settings (complexity_score : ℤ) (bounding_box : ℚ × ℚ × ℚ) :
    RecommendedSettings :=
  let layer_height : ℚ :=
    if complexity_score ≥ 7 then 12/100
    else if complexity_score ≥ 4 then 16/100
    else 20/100
  let max_dim := max3 bounding_box
  let infill : ℤ := if max_dim > 200 ∨ complexity_score ≥ 7 then 25 else 20
  let z_height := bounding_box.2.2
  let xy_max := max bounding_box.1 bounding_box.2.1
  let aspect := z_height / max xy_max 1
  { layer_height_mm := layer_height
    infill_percentage := infill
    supports_needed := decide (aspect > 2) || decide (complexity_score ≥ 6)
    brim_recommended := decide (max_dim > 150)
    print_speed_mm_s := if complexity_score ≥ 6 then 50 else 60 }

/-- The result dictionary of `calculate_full_pricing`. -/
structure PricingResult where
  mass_g : ℚ
  material_cost_usd : ℚ
  est_print_time_hours : ℚ
  recommended_settings : RecommendedSettings
  material_used : String
deriving DecidableEq

/-- `PricingEngine.calculate_full_pricing`: settings are always recomputed
from score and bounding box; when the caller passes no infill, the
recommended infill becomes the effective one. -/
def calculate_full_pricing (volume_cm3 : ℚ) (complexity_score : ℤ)
    (bounding_box : ℚ × ℚ × ℚ) (material : String)
    (infill_percentage : Option ℤ) : PricingResult :=
  let settings := get_recommended_settings complexity_score bounding_box
  let infill := infill_percentage.getD settings.infill_percentage
  let mass_g := calculate_mass volume_cm3 material infill
  let material_cost := calculate_material_cost mass_g material
  let print_time := estimate_print_time volume_cm3 complexity_score infill
  { mass_g := mass_g
    material_cost_usd := material_cost
    est_print_time_hours := print_time
    recommended_settings := settings
    material_used := material }

/-! ### Helper lemmas -/

/-- `compute_complexity_score` expressed through the measure abstraction:
holds definitionally. -/
theorem compute_eq_scoreOfMeasures (g : Geometry) (q : Quality) :
    compute_complexity_score g q =
      scoreOfMeasures (tri_density g q) q.shell_count (aspect_measure g)
        q.is_watertight (sa_vol_measure g) := rfl

/-- The raw accumulator expressed through the measure abstraction:
holds definitionally. -/
theorem raw_eq_rawScoreOfMeasures (g : Geometry) (q : Quality) :
    raw_complexity_score g q =
      rawScoreOfMeasures (tri_density g q) q.shell_count (aspect_measure g)
        q.is_watertight (sa_vol_measure g) := rfl

/-- A two-tier threshold contribution is nonnegative. -/
theorem ite_tier_nonneg (p q : Prop) [Decidable p] [Decidable q] :
    (0 : ℤ) ≤ if p then 2 else if q then 1 else 0 := by
  split_ifs <;> norm_num

/-- A two-tier threshold contribution is at most 2. -/
theorem ite_tier_le_two (p q : Prop) [Decidable p] [Decidable q] :
    (if p then (2 : ℤ) else if q then 1 else 0) ≤ 2 := by
  split_ifs <;> norm_num

/-- The watertightness contribution is nonnegative. -/
theorem ite_water_nonneg (b : Bool) : (0 : ℤ) ≤ if b then 0 else 2 := by
  cases b <;> norm_num

/-- The watertightness contribution is at most 2. -/
theorem ite_water_le_two (b : Bool) : (if b then (0 : ℤ) else 2) ≤ 2 := by
  cases b <;> norm_num

/-- A two-tier threshold contribution over ℚ is monotone in its measure. -/
theorem ite_tier_mono {t1 t2 x y : ℚ} (h : x ≤ y) :
    (if x > t2 then (2 : ℤ) else if x > t1 then 1 else 0)
      ≤ (if y > t2 then 2 else if y > t1 then 1 else 0) := by
  split_ifs <;> linarith

/-- The shell-count contribution is monotone in the shell count. -/
theorem ite_shell_mono {x y : ℕ} (h : x ≤ y) :
    (if x > 3 then (2 : ℤ) else if x > 1 then 1 else 0)
      ≤ (if y > 3 then 2 else if y > 1 then 1 else 0) := by
  split_ifs <;> omega

/-- The raw score is nonnegative. -/
theorem rawScoreOfMeasures_nonneg (td : ℚ) (sc : ℕ) (ar : ℚ) (w : Bool) (sv : ℚ) :
    0 ≤ rawScoreOfMeasures td sc ar w sv := by
  simp only [rawScoreOfMeasures]
  have h1 := ite_tier_nonneg (td > 1000) (td > 500)
  have h2 := ite_tier_nonneg (sc > 3) (sc > 1)
  have h3 := ite_tier_nonneg (ar > 10) (ar > 5)
  have h4 := ite_water_nonneg w
  have h5 := ite_tier_nonneg (sv > 50) (sv > 25)
  linarith

/-- The raw score is at most 10: each of the five factors contributes at
most 2. -/
theorem rawScoreOfMeasures_le_ten (td : ℚ) (sc : ℕ) (ar : ℚ) (w : Bool) (sv : ℚ) :
    rawScoreOfMeasures td sc ar w sv ≤ 10 := by
  simp only [rawScoreOfMeasures]
  have h1 := ite_tier_le_two (td > 1000) (td > 500)
  have h2 := ite_tier_le_two (sc > 3) (sc > 1)
  have h3 := ite_tier_le_two (ar > 10) (ar > 5)
  have h4 := ite_water_le_two w
  have h5 := ite_tier_le_two (sv > 50) (sv > 25)
  linarith

/-- With the watertightness factor silent, the other four contribute at
most 8. -/
theorem rawScoreOfMeasures_watertight_le_eight (td : ℚ) (sc : ℕ) (ar : ℚ) (sv : ℚ) :
    rawScoreOfMeasures td sc ar true sv ≤ 8 := by
  simp only [rawScoreOfMeasures]
  norm_num
  have h1 := ite_tier_le_two (td > 1000) (td > 500)
  have h2 := ite_tier_le_two (sc > 3) (sc > 1)
  have h3 := ite_tier_le_two (ar > 10) (ar > 5)
  have h5 := ite_tier_le_two (sv > 50) (sv > 25)
  linarith

/-- Flipping watertight from true to false adds exactly 2 to the raw score. -/
theorem rawScoreOfMeasures_flip (td : ℚ) (sc : ℕ) (ar : ℚ) (sv : ℚ) :
    rawScoreOfMeasures td sc ar false sv = rawScoreOfMeasures td sc ar true sv + 2 := by
  simp only [rawScoreOfMeasures]
  norm_num
  ring

/-! ### Claim theorems -/

/-- C1: for every geometry record and quality record,
`compute_complexity_score` returns exactly the reference thresholded sum of
the five factor contributions clamped to a maximum of 10, and the result is
an integer in [0, 10]. -/
theorem claim_C1_score_formula (g : Geometry) (q : Quality) :
    compute_complexity_score g q = spec_complexity_score g q ∧
    0 ≤ compute_complexity_score g q ∧ compute_complexity_score g q ≤ 10 := by
  refine ⟨rfl, ?_, min_le_right _ _⟩
  exact le_min
    (raw_eq_rawScoreOfMeasures g q ▸ rawScoreOfMeasures_nonneg _ _ _ _ _)
    (by norm_num)

/-- C2: the complexity score is monotonically non-decreasing when exactly one
risk-factor measure (triangle density, shell count, aspect ratio,
watertightness flipped from true to false, or surface-area-to-volume ratio)
is increased with the others fixed, and every score lies in [0, 10].
`compute_complexity_score` is the measure-level score applied to the measures
derived from its inputs. -/
theorem claim_C2_single_factor_monotone :
    (∀ g q, compute_complexity_score g q =
      scoreOfMeasures (tri_density g q) q.shell_count (aspect_measure g)
        q.is_watertight (sa_vol_measure g)) ∧
    (∀ (td td' : ℚ) (sc : ℕ) (ar : ℚ) (w : Bool) (sv : ℚ), td ≤ td' →
      scoreOfMeasures td sc ar w sv ≤ scoreOfMeasures td' sc ar w sv) ∧
    (∀ (td : ℚ) (sc sc' : ℕ) (ar : ℚ) (w : Bool) (sv : ℚ), sc ≤ sc' →
      scoreOfMeasures td sc ar w sv ≤ scoreOfMeasures td sc' ar w sv) ∧
    (∀ (td : ℚ) (sc : ℕ) (ar ar' : ℚ) (w : Bool) (sv : ℚ), ar ≤ ar' →
      scoreOfMeasures td sc ar w sv ≤ scoreOfMeasures td sc ar' w sv) ∧
    (∀ (td : ℚ) (sc : ℕ) (ar : ℚ) (sv : ℚ),
      scoreOfMeasures td sc ar true sv ≤ scoreOfMeasures td sc ar false sv) ∧
    (∀ (td : ℚ) (sc : ℕ) (ar : ℚ) (w : Bool) (sv sv' : ℚ), sv ≤ sv' →
      scoreOfMeasures td sc ar w sv ≤ scoreOfMeasures td sc ar w sv') ∧
    (∀ (td : ℚ) (sc : ℕ) (ar : ℚ) (w : Bool) (sv : ℚ),
      0 ≤ scoreOfMeasures td sc ar w sv ∧ scoreOfMeasures td sc ar w sv ≤ 10) := by
  refine ⟨fun g q => rfl, ?_, ?_, ?_, ?_, ?_, ?_⟩
  · intro td td' sc ar w sv h
    exact min_le_min (add_le_add (add_le_add (add_le_add
      (add_le_add (ite_tier_mono h) le_rfl) le_rfl) le_rfl) le_rfl) le_rfl
  · intro td sc sc' ar w sv h
    exact min_le_min (add_le_add (add_le_add (add_le_add
      (add_le_add le_rfl (ite_shell_mono h)) le_rfl) le_rfl) le_rfl) le_rfl
  · intro td sc ar ar' w sv h
    exact min_le_min (add_le_add (add_le_add (add_le_add
      (add_le_add le_rfl le_rfl) (ite_tier_mono h)) le_rfl) le_rfl) le_rfl
  · intro td sc ar sv
    refine min_le_min (add_le_add (add_le_add le_rfl ?_) le_rfl) le_rfl
    norm_num
  · intro td sc ar w sv sv' h
    exact min_le_min (add_le_add le_rfl (ite_tier_mono h)) le_rfl
  · intro td sc ar w sv
    exact ⟨le_min (rawScoreOfMeasures_nonneg _ _ _ _ _) (by norm_num),
      min_le_right _ _⟩

/-- Witness for C2: increasing the triangle-density measure across the 1000
threshold does not decrease the score. -/
theorem claim_C2_witness :
    scoreOfMeasures 501 1 1 true 1 ≤ scoreOfMeasures 1001 1 1 true 1 :=
  claim_C2_single_factor_monotone.2.1 501 1001 1 1 true 1 (by norm_num)

/-- C3: flipping `is_watertight` from true to false always adds exactly 2 to
the complexity score, regardless of the other factors (possible only because
the remaining factors sum to at most 8, so the cap at 10 never interferes). -/
theorem claim_C3_watertight_adds_two (g : Geometry) (q : Quality) :
    compute_complexity_score g { q with is_watertight := false }
      = compute_complexity_score g { q with is_watertight := true } + 2 := by
  have hf : compute_complexity_score g { q with is_watertight := false }
      = min (rawScoreOfMeasures (tri_density g q) q.shell_count (aspect_measure g)
          false (sa_vol_measure g)) 10 := rfl
  have ht : compute_complexity_score g { q with is_watertight := true }
      = min (rawScoreOfMeasures (tri_density g q) q.shell_count (aspect_measure g)
          true (sa_vol_measure g)) 10 := rfl
  rw [hf, ht, rawScoreOfMeasures_flip]
  have h8 := rawScoreOfMeasures_watertight_le_eight (tri_density g q) q.shell_count
    (aspect_measure g) (sa_vol_measure g)
  rw [min_eq_left (by omega), min_eq_left (by omega)]

/-- C9: the unclamped sum of the five contributions never exceeds 10, so the
final clamp never truncates and the returned score equals the raw sum. -/
theorem claim_C9_clamp_never_truncates (g : Geometry) (q : Quality) :
    raw_complexity_score g q ≤ 10 ∧
    compute_complexity_score g q = raw_complexity_score g q := by
  have h : raw_complexity_score g q ≤ 10 := by
    rw [raw_eq_rawScoreOfMeasures]
    exact rawScoreOfMeasures_le_ten _ _ _ _ _
  exact ⟨h, min_eq_left h⟩

/-- C4: the recommended infill is exactly 25 when `max(bounding_box) > 200`
or `score ≥ 7`, exactly 20 otherwise, and no other value is ever returned. -/
theorem claim_C4_infill_dichotomy (s : ℤ) (bbox : ℚ × ℚ × ℚ) :
    ((get_recommended_settings s bbox).infill_percentage = 25
        ↔ (max3 bbox > 200 ∨ s ≥ 7)) ∧
    ((get_recommended_settings s bbox).infill_percentage = 20
        ↔ ¬(max3 bbox > 200 ∨ s ≥ 7)) ∧
    ((get_recommended_settings s bbox).infill_percentage = 25 ∨
     (get_recommended_settings s bbox).infill_percentage = 20) := by
  by_cases h : max3 bbox > 200 ∨ s ≥ 7 <;>
    simp [get_recommended_settings, h]

/-- Witness for C4: a small low-complexity part gets the standard 20%
infill. -/
theorem claim_C4_witness :
    (get_recommended_settings 0 (10, 10, 10)).infill_percentage = 20 :=
  (claim_C4_infill_dichotomy 0 (10, 10, 10)).2.1.mpr
    (by simp [max3]; norm_num)

/-- C5: when `calculate_full_pricing` is called with no explicit infill, the
infill used for the mass and for the print time is exactly the
`infill_percentage` field of the `recommended_settings` in the same result. -/
theorem claim_C5_default_infill_consistent (v : ℚ) (s : ℤ) (bbox : ℚ × ℚ × ℚ)
    (m : String) :
    (calculate_full_pricing v s bbox m none).mass_g
      = calculate_mass v m
          (calculate_full_pricing v s bbox m none).recommended_settings.infill_percentage ∧
    (calculate_full_pricing v s bbox m none).est_print_time_hours
      = estimate_print_time v s
          (calculate_full_pricing v s bbox m none).recommended_settings.infill_percentage ∧
    (calculate_full_pricing v s bbox m none).recommended_settings
      = get_recommended_settings s bbox :=
  ⟨rfl, rfl, rfl⟩

/-- C10: the `recommended_settings` field of `calculate_full_pricing` depends
only on the complexity score and bounding box — two calls differing only in
the explicit infill argument return identical settings — and with an explicit
infill the settings still report the recommended infill, which can differ
from the infill actually used for mass and time. -/
theorem claim_C10_settings_ignore_infill (v : ℚ) (s : ℤ) (bbox : ℚ × ℚ × ℚ)
    (m : String) (i1 i2 : Option ℤ) :
    (calculate_full_pricing v s bbox m i1).recommended_settings
      = (calculate_full_pricing v s bbox m i2).recommended_settings ∧
    (calculate_full_pricing v s bbox m i1).recommended_settings
      = get_recommended_settings s bbox ∧
    ((calculate_full_pricing 10 0 (10, 10, 10) "PLA" (some 50)).recommended_settings.infill_percentage
        = 20 ∧
     (calculate_full_pricing 10 0 (10, 10, 10) "PLA" (some 50)).mass_g
        = calculate_mass 10 "PLA" 50 ∧
     (calculate_full_pricing 10 0 (10, 10, 10) "PLA" (some 50)).est_print_time_hours
        = estimate_print_time 10 0 50) := by
  refine ⟨rfl, rfl, ?_, rfl, rfl⟩
  simp [calculate_full_pricing, get_recommended_settings, max3]
  norm_num

/-- Round-half-to-even lands within 1/2 of its argument. -/
theorem roundHalfEven_sub_abs_le (x : ℚ) : |(roundHalfEven x : ℚ) - x| ≤ 1/2 := by
  have h1 : ((⌊x⌋ : ℤ) : ℚ) ≤ x := Int.floor_le x
  have h2 : x < (⌊x⌋ : ℚ) + 1 := Int.lt_floor_add_one x
  simp only [roundHalfEven]
  split_ifs with hf1 hf2 hd <;>
    rw [abs_le] <;> constructor <;> push_cast <;> linarith

/-- `round2` lands within 1/200 of its argument. -/
theorem round2_sub_abs_le (x : ℚ) : |round2 x - x| ≤ 1/200 := by
  have h := roundHalfEven_sub_abs_le (x * 100)
  rw [abs_le] at h ⊢
  simp only [round2]
  constructor <;> linarith [h.1, h.2]

/-- Round-half-to-even is monotone. -/
theorem roundHalfEven_mono {x y : ℚ} (h : x ≤ y) :
    roundHalfEven x ≤ roundHalfEven y := by
  by_contra hc
  push_neg at hc
  have hx := roundHalfEven_sub_abs_le x
  have hy := roundHalfEven_sub_abs_le y
  rw [abs_le] at hx hy
  have h1 : (roundHalfEven y : ℚ) + 1 ≤ (roundHalfEven x : ℚ) := by
    exact_mod_cast Int.add_one_le_iff.mpr hc
  have hyx : y ≤ x := by linarith [hx.1, hx.2, hy.1, hy.2]
  have hxy : x = y := le_antisymm h hyx
  rw [hxy] at hc
  exact lt_irrefl _ hc

/-- `round2` is monotone. -/
theorem round2_mono {x y : ℚ} (h : x ≤ y) : round2 x ≤ round2 y := by
  have h100 : x * 100 ≤ y * 100 := by linarith
  have hr := roundHalfEven_mono h100
  have hrq : ((roundHalfEven (x * 100) : ℤ) : ℚ) ≤ ((roundHalfEven (y * 100) : ℤ) : ℚ) := by
    exact_mod_cast hr
  simp only [round2]
  linarith

/-- Round-half-to-even of a nonnegative number is nonnegative. -/
theorem roundHalfEven_nonneg {x : ℚ} (h : 0 ≤ x) : 0 ≤ roundHalfEven x := by
  have h0 : (0 : ℤ) ≤ ⌊x⌋ := Int.floor_nonneg.mpr h
  simp only [roundHalfEven]
  split_ifs <;> omega

/-- `round2` of a nonnegative number is nonnegative. -/
theorem round2_nonneg {x : ℚ} (h : 0 ≤ x) : 0 ≤ round2 x := by
  have h0 : (0 : ℤ) ≤ roundHalfEven (x * 100) :=
    roundHalfEven_nonneg (by linarith)
  have h0q : (0 : ℚ) ≤ (roundHalfEven (x * 100) : ℚ) := by exact_mod_cast h0
  simp only [round2]
  linarith

/-- C6 fails on the code: at volume 0.01 cm³ (PLA, 20% infill) the rounded
mass of the doubled volume is 0.01 g while twice the rounded mass is
0.02 g. -/
theorem claim_C6_counterexample :
    calculate_mass (2 * (1/100)) "PLA" 20 ≠ 2 * calculate_mass (1/100) "PLA" 20 := by
  norm_num [calculate_mass, effective_density, findMaterial, materials,
    round2, roundHalfEven]

/-- C6 amended: the mass before the final 2-decimal rounding is exactly
linear — doubling the volume doubles it — and the rounded outputs of
`calculate_mass` agree with exact doubling to within 0.015 g. -/
theorem claim_C6_amended (v : ℚ) (m : String) (i : ℤ) :
    (2 * v) * effective_density m i = 2 * (v * effective_density m i) ∧
    |calculate_mass (2 * v) m i - 2 * calculate_mass v m i| ≤ 3/200 := by
  refine ⟨by ring, ?_⟩
  have h1 := round2_sub_abs_le ((2 * v) * effective_density m i)
  have h2 := round2_sub_abs_le (v * effective_density m i)
  have e : (2 * v) * effective_density m i = 2 * (v * effective_density m i) := by
    ring
  rw [e] at h1
  rw [abs_le] at h1 h2 ⊢
  simp only [calculate_mass, e]
  constructor <;> linarith [h1.1, h1.2, h2.1, h2.2]

/-- C7 fails on the code: the 2-decimal rounding collapses small increments,
so `estimate_print_time` is not strictly increasing — at volume 1 cm³ raising
infill from 20% to 21% leaves the rounded time unchanged, and at volume
0.1 cm³ raising the complexity score from 0 to 1 leaves it unchanged. -/
theorem claim_C7_counterexample :
    estimate_print_time 1 5 20 = estimate_print_time 1 5 21 ∧
    estimate_print_time (1/10) 0 20 = estimate_print_time (1/10) 1 20 := by
  constructor <;>
    norm_num [estimate_print_time, raw_print_time, fdm_print_speed,
      round2, roundHalfEven]

/-- C7 amended: for nonnegative volume, score and infill,
`estimate_print_time` is monotonically non-decreasing in the score and the
infill, and the time before the final 2-decimal rounding is strictly
increasing in each of them whenever the volume is positive. -/
theorem claim_C7_amended (v : ℚ) (s s' i i' : ℤ)
    (hv : 0 ≤ v) (hs : 0 ≤ s) (hi : 0 ≤ i) (hss : s ≤ s') (hii : i ≤ i') :
    estimate_print_time v s i ≤ estimate_print_time v s' i' ∧
    (0 < v → s < s' → raw_print_time v s i < raw_print_time v s' i) ∧
    (0 < v → i < i' → raw_print_time v s i < raw_print_time v s i') := by
  have hsq : (0 : ℚ) ≤ (s : ℚ) := by exact_mod_cast hs
  have hiq : (0 : ℚ) ≤ (i : ℚ) := by exact_mod_cast hi
  have hssq : (s : ℚ) ≤ (s' : ℚ) := by exact_mod_cast hss
  have hiiq : (i : ℚ) ≤ (i' : ℚ) := by exact_mod_cast hii
  have ha : (0 : ℚ) ≤ v / 20 := by linarith
  have hb0 : (0 : ℚ) ≤ 1 + (s : ℚ) / 10 := by linarith
  have hb : 1 + (s : ℚ) / 10 ≤ 1 + (s' : ℚ) / 10 := by linarith
  have hc0 : (0 : ℚ) ≤ 8/10 + (i : ℚ) / 100 * (4/10) := by linarith
  have hc : 8/10 + (i : ℚ) / 100 * (4/10) ≤ 8/10 + (i' : ℚ) / 100 * (4/10) := by
    linarith
  refine ⟨?_, ?_, ?_⟩
  · have hraw : raw_print_time v s i ≤ raw_print_time v s' i' := by
      simp only [raw_print_time, fdm_print_speed]
      calc v / 20 * (1 + (s : ℚ) / 10) * (8/10 + (i : ℚ) / 100 * (4/10))
          ≤ v / 20 * (1 + (s' : ℚ) / 10) * (8/10 + (i : ℚ) / 100 * (4/10)) :=
            mul_le_mul_of_nonneg_right (mul_le_mul_of_nonneg_left hb ha) hc0
        _ ≤ v / 20 * (1 + (s' : ℚ) / 10) * (8/10 + (i' : ℚ) / 100 * (4/10)) :=
            mul_le_mul_of_nonneg_left hc (mul_nonneg ha (hb0.trans hb))
    exact round2_mono hraw
  · intro hv0 hss'
    have hblt : 1 + (s : ℚ) / 10 < 1 + (s' : ℚ) / 10 := by
      have : (s : ℚ) < (s' : ℚ) := by exact_mod_cast hss'
      linarith
    have ha' : (0 : ℚ) < v / 20 := by linarith
    have hc0' : (0 : ℚ) < 8/10 + (i : ℚ) / 100 * (4/10) := by linarith
    simp only [raw_print_time, fdm_print_speed]
    exact mul_lt_mul_of_pos_right (mul_lt_mul_of_pos_left hblt ha') hc0'
  · intro hv0 hii'
    have hclt : 8/10 + (i : ℚ) / 100 * (4/10) < 8/10 + (i' : ℚ) / 100 * (4/10) := by
      have : (i : ℚ) < (i' : ℚ) := by exact_mod_cast hii'
      linarith
    have hab : (0 : ℚ) < v / 20 * (1 + (s : ℚ) / 10) := by
      have ha' : (0 : ℚ) < v / 20 := by linarith
      have hb' : (0 : ℚ) < 1 + (s : ℚ) / 10 := by linarith
      exact mul_pos ha' hb'
    simp only [raw_print_time, fdm_print_speed]
    exact mul_lt_mul_of_pos_left hclt hab

/-- Witness for the amended C7 at volume 1 cm³, score 0 → 1, infill 0 → 1. -/
theorem claim_C7_witness :
    estimate_print_time 1 0 0 ≤ estimate_print_time 1 1 1 :=
  (claim_C7_amended 1 0 1 0 1 (by norm_num) le_rfl le_rfl
    (by norm_num) (by norm_num)).1

/-- C8 fails on the code: with the unknown material name "XYZ" and the
positive volume 0.1 cm³ the computed mass is 0.05 g, whose cost
0.05 × 0.02 = 0.001 USD rounds to exactly 0 — not a positive cost. -/
theorem claim_C8_counterexample :
    findMaterial "XYZ" = none ∧ (0 : ℚ) < 1/10 ∧
    calculate_material_cost (calculate_mass (1/10) "XYZ" 20) "XYZ" = 0 := by
  have hm : findMaterial "XYZ" = none := by simp [findMaterial, materials]
  have hmass : calculate_mass (1/10) "XYZ" 20 = 5/100 := by
    simp only [calculate_mass, effective_density, hm, default_density]
    norm_num [round2, roundHalfEven]
  refine ⟨hm, by norm_num, ?_⟩
  simp only [calculate_material_cost, hm, hmass, default_cost_per_gram]
  norm_num [round2, roundHalfEven]

/-- C8 amended: an unknown material never errors — `calculate_mass` and
`calculate_material_cost` substitute the configured default density and
default cost per gram — the cost is nonnegative for nonnegative volume and
infill, and it is strictly positive once the volume is at least 1 cm³. -/
theorem claim_C8_amended (v : ℚ) (i : ℤ) (m : String)
    (hm : findMaterial m = none) :
    calculate_mass v m i
      = round2 (v * (default_density * (3/10 + 7/10 * ((i : ℚ) / 100)))) ∧
    calculate_material_cost (calculate_mass v m i) m
      = round2 (calculate_mass v m i * default_cost_per_gram) ∧
    (0 ≤ v → 0 ≤ i → 0 ≤ calculate_material_cost (calculate_mass v m i) m) ∧
    (1 ≤ v → 0 ≤ i → 0 < calculate_material_cost (calculate_mass v m i) m) := by
  have hmass_eq : calculate_mass v m i
      = round2 (v * (default_density * (3/10 + 7/10 * ((i : ℚ) / 100)))) := by
    simp [calculate_mass, effective_density, hm]
  have hcost_eq : calculate_material_cost (calculate_mass v m i) m
      = round2 (calculate_mass v m i * default_cost_per_gram) := by
    simp [calculate_material_cost, hm]
  refine ⟨hmass_eq, hcost_eq, ?_, ?_⟩
  · intro hv hi0
    have hiq : (0 : ℚ) ≤ (i : ℚ) := by exact_mod_cast hi0
    have hd0 : (0 : ℚ) ≤ default_density * (3/10 + 7/10 * ((i : ℚ) / 100)) := by
      have : (0 : ℚ) ≤ 3/10 + 7/10 * ((i : ℚ) / 100) := by linarith
      exact mul_nonneg (by norm_num [default_density]) this
    have hmass0 : 0 ≤ calculate_mass v m i := by
      rw [hmass_eq]
      exact round2_nonneg (mul_nonneg hv hd0)
    rw [hcost_eq]
    exact round2_nonneg (mul_nonneg hmass0 (by norm_num [default_cost_per_gram]))
  · intro hv1 hi0
    have hiq : (0 : ℚ) ≤ (i : ℚ) := by exact_mod_cast hi0
    have hd : (372/1000 : ℚ) ≤ default_density * (3/10 + 7/10 * ((i : ℚ) / 100)) := by
      have e : default_density * (3/10 + 7/10 * ((i : ℚ) / 100))
          = 372/1000 + (868/100000) * (i : ℚ) := by
        norm_num [default_density]; ring
      rw [e]; linarith
    have hd0 : (0 : ℚ) ≤ default_density * (3/10 + 7/10 * ((i : ℚ) / 100)) := by
      linarith
    have hX : (372/1000 : ℚ)
        ≤ v * (default_density * (3/10 + 7/10 * ((i : ℚ) / 100))) := by
      have h1 := mul_le_mul_of_nonneg_right hv1 hd0
      linarith [h1]
    have h1 := round2_sub_abs_le
      (v * (default_density * (3/10 + 7/10 * ((i : ℚ) / 100))))
    rw [abs_le] at h1
    have hmass : (367/1000 : ℚ) ≤ calculate_mass v m i := by
      rw [hmass_eq]; linarith [h1.1, h1.2]
    have h2 := round2_sub_abs_le (calculate_mass v m i * default_cost_per_gram)
    rw [abs_le] at h2
    rw [hcost_eq]
    have : (2/100 : ℚ) = default_cost_per_gram := by norm_num [default_cost_per_gram]
    nlinarith [h2.1, h2.2, hmass]

/-- Witness for the amended C8: the unknown material "XYZ" at volume 1 cm³
yields a positive cost. -/
theorem claim_C8_witness :
    findMaterial "XYZ" = none ∧
    0 < calculate_material_cost (calculate_mass 1 "XYZ" 20) "XYZ" :=
  ⟨by simp [findMaterial, materials],
   (claim_C8_amended 1 20 "XYZ" (by simp [findMaterial, materials])).2.2.2
     (by norm_num) (by norm_num)⟩

end Kitforge
